import Mathlib

/-!
Verification of the `ASI` class in `src/ASI.py`, a small self-learning-agent
simulation. The claims under study concern the cache persistence cycle
(`dump_cache` / `restore_cache` / `self_heal`), the memory table
(`update_memory`), the daily maintenance check (`maintain_memory`), the
plugin loader (`load_plugins`), and the Z-axis calibration step of
`self_learn`. The Python code is shallowly embedded: the object state and the
snapshot file become an explicit `World` record, fallible operations return
`Except`, and the in-place list mutation of `self_learn` is modelled with an
explicit heap of references.
-/

namespace ASI

/-- A Python value stored in one of the dictionaries (`self.memory`,
`self.cache`). The program only ever stores strings and numbers; the type is
kept small but non-trivial so that mappings are quantified over genuinely. -/
inductive PyVal where
  | str : String → PyVal
  | int : Int → PyVal
deriving DecidableEq, Repr

/-- A Python `dict` with string keys, as an insertion-ordered association
list (the representation Python itself guarantees). -/
abbrev Dict : Type := List (String × PyVal)

/-- Python dict assignment `d[k] = v`: if `k` is present its entry is
overwritten in place, otherwise `(k, v)` is appended at the end. -/
def dictSet (d : Dict) (k : String) (v : PyVal) : Dict :=
  if d.any (fun p => p.1 = k) then
    d.map (fun p => if p.1 = k then (k, v) else p)
  else
    d ++ [(k, v)]

/-- Python dict lookup `d[k]` / `d.get(k)`: the value at the first matching
key, if any. -/
def dictGet (d : Dict) (k : String) : Option PyVal :=
  match d with
  | [] => none
  | (k', v) :: t => if k' = k then some v else dictGet t k

/-- The content of the snapshot file `cache_dump.pkl` when it exists: either
well-formed pickled bytes of a cache mapping, or bytes that `pickle.load`
would fail on. -/
inductive Snapshot where
  | valid : Dict → Snapshot
  | corrupt : Snapshot
deriving DecidableEq, Repr

/-- The in-process state of an `ASI` object: `self.memory`, `self.cache`
and `self.last_update_time` (a timestamp, counted in whole minutes). The
classifier `self.model` is opaque to every claim and is omitted. -/
structure ASIState where
  memory : Dict
  cache : Dict
  last_update_time : Int
deriving DecidableEq, Repr

/-- The world an `ASI` method can touch: the object state plus the snapshot
file at the fixed path `cache_dump.pkl` (`none` = file absent). -/
structure World where
  asi : ASIState
  snapshot : Option Snapshot
deriving DecidableEq, Repr

/-- `ASI.dump_cache`: `pickle.dump(self.cache, f)` over `open('cache_dump.pkl',
'wb')` — the file is truncated and replaced with the serialized cache. -/
def dump_cache (w : World) : World :=
  { w with snapshot := some (Snapshot.valid w.asi.cache) }

/-- `ASI.restore_cache`: if `cache_dump.pkl` exists, `self.cache =
pickle.load(f)` (raising if the bytes are not a valid pickle); otherwise a
warning is logged and nothing is assigned. -/
def restore_cache (w : World) : Except String World :=
  match w.snapshot with
  | some (Snapshot.valid c) =>
      Except.ok { w with asi := { w.asi with cache := c } }
  | some Snapshot.corrupt => Except.error "UnpicklingError"
  | none => Except.ok w

/-- `ASI.self_heal`: `self.restore_cache()` inside `try ... except Exception`;
a failure is logged and swallowed, leaving the state as it was when the
exception was raised. -/
def self_heal (w : World) : Except String World :=
  match restore_cache w with
  | Except.ok w' => Except.ok w'
  | Except.error _ => Except.ok w

/-- `ASI.update_memory`: `self.memory[key] = value`, then a log line. -/
def update_memory (w : World) (key : String) (value : PyVal) : World :=
  { w with asi := { w.asi with memory := dictSet w.asi.memory key value } }

/-- `timedelta(days=1)` measured in minutes, the granularity of the model
timestamps. -/
def oneDay : Int := 1440

/-- The body of one iteration of `ASI.maintain_memory`, at check time `now`:
if `now - last_update_time > timedelta(days=1)` then
`update_memory("last_update", str(now))` runs and `last_update_time` is set
to `now`; otherwise nothing changes. The second component records whether a
memory update was performed in this iteration. -/
def maintain_memory_check (w : World) (now : Int) : World × Bool :=
  if now - w.asi.last_update_time > oneDay then
    ({ update_memory w "last_update" (PyVal.str (toString now)) with
        asi := { (update_memory w "last_update" (PyVal.str (toString now))).asi with
                  last_update_time := now } }, true)
  else (w, false)

/-- The environment the plugin loader runs against: which paths exist on the
file system, and what `ctypes.CDLL` does at each path — either an opaque
numeric handle, or an exception with a message. -/
structure PluginEnv where
  pathExists : String → Bool
  cdll : String → Except String Nat

/-- `ASI.load_plugins`: if the path exists, `ctypes.CDLL` is attempted under
`try ... except Exception` and a raised exception is converted into `None`;
if the path does not exist, an error is logged and `None` is returned. -/
def load_plugins (env : PluginEnv) (file_path : String) : Option Nat :=
  if env.pathExists file_path then
    match env.cdll file_path with
    | Except.ok plugin => some plugin
    | Except.error _ => none
  else
    none

/-- The feature matrix `X` of `ASI.self_learn`: a list of rows of numbers.
The Python floats are modelled as exact rationals. -/
abbrev Features : Type := List (List Rat)

/-- The calibration step of `ASI.self_learn`: under Python truthiness
(`if Z_calibration:`), `None` and `0` skip the calibration loop; otherwise
every row is updated by `X[i][2] = X[i][2] + Z_calibration`. The subsequent
`self.model.fit(X, y)` does not modify `X` and no claim depends on it. -/
def self_learn_calibrate (X : Features) (Z_calibration : Option Rat) :
    Features :=
  match Z_calibration with
  | none => X
  | some z =>
      if z = 0 then X
      else X.map (fun row => row.set 2 (row.getD 2 0 + z))

/-- A heap of list objects, indexed by reference: Python variables hold
references into this heap, and `self_learn` receives the reference to the
list the caller passed as `X`, not a copy of its contents. -/
abbrev ListHeap : Type := Nat → Features

/-- The effect of the calibration loop of `ASI.self_learn` on the heap when
the caller passes the list at reference `r`: the loop assigns into that very
list object (`X[i][2] = ...`), so the heap cell at `r` is overwritten with
the calibrated rows and every other reference is untouched. -/
def self_learn_mutate (h : ListHeap) (r : Nat) (Z_calibration : Option Rat) :
    ListHeap :=
  fun r' => if r' = r then self_learn_calibrate (h r') Z_calibration else h r'

end ASI

namespace ASI

/-- **C1.** Restoring immediately after a dump succeeds and yields a cache
mapping equal to the dumped one: for every world, `restore_cache` after
`dump_cache` returns `ok` of the post-dump world, whose cache equals the
cache that was dumped. -/
theorem restore_after_dump_roundtrip (w : World) :
    restore_cache (dump_cache w) = Except.ok (dump_cache w) ∧
      (dump_cache w).asi.cache = w.asi.cache := by
  constructor
  · simp [restore_cache, dump_cache]
  · rfl

/-- **C7.** Dumping twice in succession leaves the world (in particular the
snapshot file) exactly as a single dump does: the dump overwrites. -/
theorem dump_cache_idempotent (w : World) :
    dump_cache (dump_cache w) = dump_cache w := rfl

/-- **C8.** `self_heal` never raises to its caller: for every world —
including worlds whose snapshot is corrupt, where `restore_cache` itself
raises — it returns normally with some resulting world. -/
theorem self_heal_total (w : World) :
    ∃ w', self_heal w = Except.ok w' := by
  unfold self_heal
  cases h : restore_cache w with
  | ok w' => exact ⟨w', rfl⟩
  | error e => exact ⟨w, rfl⟩

/-- A concrete world with a non-empty cache and no snapshot file, used to
exercise the absent-file branch of `restore_cache`. -/
def nonemptyCacheNoFile : World :=
  { asi := { memory := [], cache := [("data_point_1", PyVal.str "Important value")],
             last_update_time := 0 },
    snapshot := none }

/-- **C2, counterexample.** The claim says that with no snapshot file,
`restore_cache` leaves the process with an *empty* cache for every prior
cache state. On a world whose cache holds one entry and whose snapshot file
is absent, `restore_cache` returns normally but the resulting cache is that
same non-empty mapping, not the empty one. -/
theorem restore_absent_not_empty_cex :
    restore_cache nonemptyCacheNoFile = Except.ok nonemptyCacheNoFile ∧
      nonemptyCacheNoFile.asi.cache ≠ [] := by
  exact ⟨rfl, by decide⟩

/-- **C2, amended.** When the snapshot file does not exist, `restore_cache`
does not raise and leaves the whole world — in particular the in-process
cache mapping — unchanged (so the cache is empty only if it already was). -/
theorem restore_absent_no_raise (w : World) (h : w.snapshot = none) :
    restore_cache w = Except.ok w := by
  unfold restore_cache
  rw [h]

/-- Witness for `restore_absent_no_raise` at a concrete world. -/
theorem restore_absent_no_raise_witness :
    restore_cache nonemptyCacheNoFile = Except.ok nonemptyCacheNoFile :=
  restore_absent_no_raise nonemptyCacheNoFile rfl

/-- **C9.** When the snapshot file does not exist, `restore_cache` returns
normally and the in-process cache mapping is exactly what it was before the
call: it is neither cleared nor replaced. -/
theorem restore_absent_frames_cache (w : World) (h : w.snapshot = none) :
    ∃ w', restore_cache w = Except.ok w' ∧ w'.asi.cache = w.asi.cache := by
  refine ⟨w, ?_, rfl⟩
  unfold restore_cache
  rw [h]

/-- Witness for `restore_absent_frames_cache` at a concrete world. -/
theorem restore_absent_frames_cache_witness :
    ∃ w', restore_cache nonemptyCacheNoFile = Except.ok w' ∧
      w'.asi.cache = nonemptyCacheNoFile.asi.cache :=
  restore_absent_frames_cache nonemptyCacheNoFile rfl

/-- Looking up the key just written by `dictSet` yields the written value,
whatever the dictionary held before. -/
theorem dictGet_dictSet (d : Dict) (k : String) (v : PyVal) :
    dictGet (dictSet d k v) k = some v := by
  unfold dictSet
  by_cases hmem : d.any (fun p => p.1 = k)
  · simp only [hmem, if_pos]
    induction d with
    | nil => simp at hmem
    | cons hd t ih =>
        simp only [List.map_cons]
        by_cases hk : hd.1 = k
        · rw [if_pos hk]
          simp [dictGet]
        · rw [if_neg hk]
          have ht : t.any (fun p => p.1 = k) := by
            simp only [List.any_cons, hk] at hmem
            simpa using hmem
          simpa [dictGet, hk] using ih ht
  · simp only [hmem, if_neg, not_false_iff]
    induction d with
    | nil => simp [dictGet]
    | cons hd t ih =>
        have hk : hd.1 ≠ k := by
          intro heq
          exact hmem (by simp [List.any_cons, heq])
        have ht : ¬ t.any (fun p => p.1 = k) := by
          intro habs
          exact hmem (by simp [List.any_cons, habs])
        simpa [dictGet, hk] using ih ht

/-- **C6.** Two successive `update_memory` calls on the same key leave the
memory entry for that key equal to the second value: insert-or-overwrite. -/
theorem update_memory_overwrite (w : World) (k : String) (v1 v2 : PyVal) :
    dictGet ((update_memory (update_memory w k v1) k v2).asi.memory) k
      = some v2 := by
  unfold update_memory
  exact dictGet_dictSet _ k v2

/-- **C4.** With `last_update_time = t0`, the maintenance check at
`t0 + 23h59m` (1439 minutes) performs no update and changes nothing, while
the check at `t0 + 24h1m` (1441 minutes) performs exactly one memory update —
writing the timestamp string under the fixed key `last_update` — and leaves
`last_update_time` equal to the check time. -/
theorem maintain_memory_daily_threshold (w : World) :
    maintain_memory_check w (w.asi.last_update_time + 1439) = (w, false) ∧
      (maintain_memory_check w (w.asi.last_update_time + 1441)).2 = true ∧
      (maintain_memory_check w (w.asi.last_update_time + 1441)).1.asi.memory
        = dictSet w.asi.memory "last_update"
            (PyVal.str (toString (w.asi.last_update_time + 1441))) ∧
      (maintain_memory_check w
          (w.asi.last_update_time + 1441)).1.asi.last_update_time
        = w.asi.last_update_time + 1441 := by
  refine ⟨?_, ?_, ?_, ?_⟩ <;>
    norm_num [maintain_memory_check, oneDay, update_memory]

/-- **C5.** `load_plugins` never raises and returns an absent handle on every
failure: if the path does not exist, or `ctypes.CDLL` raises at that path,
the result is `none`. -/
theorem load_plugins_failure_returns_none (env : PluginEnv) (p : String)
    (h : env.pathExists p = false ∨ ∃ e, env.cdll p = Except.error e) :
    load_plugins env p = none := by
  unfold load_plugins
  rcases h with h | ⟨e, he⟩
  · simp [h]
  · by_cases hp : env.pathExists p
    · simp [hp, he]
    · simp [hp]

/-- Witness for `load_plugins_failure_returns_none`: the run in
`__main__` requests `sensors.so` on a file system where it is absent. -/
theorem load_plugins_failure_returns_none_witness :
    load_plugins ⟨fun _ => false, fun _ => Except.error "OSError"⟩ "sensors.so"
      = none :=
  load_plugins_failure_returns_none _ _ (Or.inl rfl)

/-- After calibration with offset `c`, row `i` has third coordinate equal to
its original third coordinate plus `c` (rows of length at least 3; for
`c = 0` the loop is skipped by Python truthiness and the equation still
holds). -/
lemma calibrate_third (X : Features) (c : Rat) (i : Nat)
    (hlen : ∀ row ∈ X, 3 ≤ row.length) (hi : i < X.length) :
    ((self_learn_calibrate X (some c)).getD i []).getD 2 0
      = (X.getD i []).getD 2 0 + c := by
  simp only [self_learn_calibrate]
  by_cases hz : c = 0
  · subst hz; simp
  · rw [if_neg hz]
    have hrow : 3 ≤ X[i].length := hlen X[i] (List.getElem_mem hi)
    have hXD : X.getD i [] = X[i] := by
      rw [List.getD_eq_getElem?_getD, List.getElem?_eq_getElem hi,
        Option.getD_some]
    have hmapD : (X.map (fun row => row.set 2 (row.getD 2 0 + c))).getD i []
        = (X[i]).set 2 ((X[i]).getD 2 0 + c) := by
      rw [List.getD_eq_getElem?_getD, List.getElem?_map,
        List.getElem?_eq_getElem hi, Option.map_some', Option.getD_some]
    rw [hmapD, hXD, List.getD_eq_getElem?_getD,
      List.getElem?_set_eq_of_lt _ (show 2 < X[i].length by omega),
      Option.getD_some]

/-- After calibration, every coordinate of row `i` other than the third is
unchanged. -/
lemma calibrate_other (X : Features) (c : Rat) (i k : Nat) (hk : 2 ≠ k)
    (hi : i < X.length) :
    ((self_learn_calibrate X (some c)).getD i []).getD k 0
      = (X.getD i []).getD k 0 := by
  simp only [self_learn_calibrate]
  by_cases hz : c = 0
  · subst hz; simp
  · rw [if_neg hz]
    have hXD : X.getD i [] = X[i] := by
      rw [List.getD_eq_getElem?_getD, List.getElem?_eq_getElem hi,
        Option.getD_some]
    have hmapD : (X.map (fun row => row.set 2 (row.getD 2 0 + c))).getD i []
        = (X[i]).set 2 ((X[i]).getD 2 0 + c) := by
      rw [List.getD_eq_getElem?_getD, List.getElem?_map,
        List.getElem?_eq_getElem hi, Option.map_some', Option.getD_some]
    rw [hmapD, hXD, List.getD_eq_getElem?_getD, List.getElem?_set_ne hk,
      ← List.getD_eq_getElem?_getD]

/-- **C3.** After the calibration step of `self_learn(X, y, c)`, every row
`i` of `X` (rows of length at least 3) has third coordinate equal to its
original third coordinate plus `c`, and first and second coordinates equal
to their original values. -/
theorem self_learn_calibration_coords (X : Features) (c : Rat) (i : Nat)
    (hlen : ∀ row ∈ X, 3 ≤ row.length) (hi : i < X.length) :
    ((self_learn_calibrate X (some c)).getD i []).getD 2 0
        = (X.getD i []).getD 2 0 + c ∧
      ((self_learn_calibrate X (some c)).getD i []).getD 0 0
        = (X.getD i []).getD 0 0 ∧
      ((self_learn_calibrate X (some c)).getD i []).getD 1 0
        = (X.getD i []).getD 1 0 :=
  ⟨calibrate_third X c i hlen hi,
    calibrate_other X c i 0 (by decide) hi,
    calibrate_other X c i 1 (by decide) hi⟩

/-- Witness for `self_learn_calibration_coords` at the row `[1, 2, 3]` with
offset `5`. -/
theorem self_learn_calibration_coords_witness :
    ((self_learn_calibrate [[1, 2, 3]] (some 5)).getD 0 []).getD 2 0
        = (([[(1 : Rat), 2, 3]]).getD 0 []).getD 2 0 + 5 ∧
      ((self_learn_calibrate [[1, 2, 3]] (some 5)).getD 0 []).getD 0 0
        = (([[(1 : Rat), 2, 3]]).getD 0 []).getD 0 0 ∧
      ((self_learn_calibrate [[1, 2, 3]] (some 5)).getD 0 []).getD 1 0
        = (([[(1 : Rat), 2, 3]]).getD 0 []).getD 1 0 :=
  self_learn_calibration_coords [[1, 2, 3]] 5 0
    (by intro row hr; rw [List.mem_singleton] at hr; subst hr; decide)
    (by decide)

/-- **C10.** For a non-zero offset, `self_learn` mutates the feature list in
place: reading back through the very reference `r` the caller passed in
shows every row with a modified third coordinate (old value plus the offset,
hence different from the old value) — the calibration is not applied to a
private copy. -/
theorem self_learn_mutates_in_place (h : ListHeap) (r : Nat) (c : Rat)
    (hc : c ≠ 0) (hlen : ∀ row ∈ h r, 3 ≤ row.length) (i : Nat)
    (hi : i < (h r).length) :
    ((self_learn_mutate h r (some c) r).getD i []).getD 2 0
        = ((h r).getD i []).getD 2 0 + c ∧
      ((self_learn_mutate h r (some c) r).getD i []).getD 2 0
        ≠ ((h r).getD i []).getD 2 0 := by
  have hcell : self_learn_mutate h r (some c) r
      = self_learn_calibrate (h r) (some c) := by
    simp [self_learn_mutate]
  rw [hcell, calibrate_third (h r) c i hlen hi]
  refine ⟨rfl, ?_⟩
  simpa [add_right_eq_self] using hc

/-- Witness for `self_learn_mutates_in_place`: a heap whose reference `0`
holds `[[1, 2, 3]]`, calibrated with offset `5`. -/
theorem self_learn_mutates_in_place_witness :
    ((self_learn_mutate (fun _ => [[1, 2, 3]]) 0 (some 5) 0).getD 0 []).getD 2 0
        = (([[(1 : Rat), 2, 3]]).getD 0 []).getD 2 0 + 5 ∧
      ((self_learn_mutate (fun _ => [[1, 2, 3]]) 0 (some 5) 0).getD 0 []).getD 2 0
        ≠ (([[(1 : Rat), 2, 3]]).getD 0 []).getD 2 0 :=
  self_learn_mutates_in_place (fun _ => [[1, 2, 3]]) 0 5 (by norm_num)
    (by intro row hr; rw [List.mem_singleton] at hr; subst hr; decide)
    0 (by decide)

end ASI
